import Mathlib

/-!
Shallow embedding of the Nokshi storefront application (`src/app.py`,
`src/models.py`): data model, session cart operations, checkout, admin
authentication and admin routes, together with theorems settling the
specification claims about them.

Conventions of the embedding:
* Python dicts (the session cart, form data) become association lists with
  Python-dict semantics (lookup and in-place update on the first matching
  key, insertion at the end).
* Prices (SQL `Float` columns) are modelled as rationals; no claim depends
  on floating-point rounding.
* `datetime.utcnow()` and `datetime.utcnow().timestamp()` become an explicit
  `now : Nat` parameter of the handlers that read the clock.
* Each route handler is a pure function from its inputs (method, form,
  session, store) to a result record holding the new session/store, the
  flash messages of the request, and the HTTP response (redirect or
  rendered template).
-/

namespace Nokshi

/-- A flash message: (text, category), as produced by Flask's `flash`. -/
abbrev Flash := String × String

/-- Route endpoints the application redirects to (`url_for` targets). -/
inductive Endpoint where
  | home
  | productsView
  | cartPage
  | checkoutR
  | orderSuccess (order_id : Nat)
  | adminLogin
  | adminDashboard
  | adminProducts
deriving DecidableEq

/-- The response of a handler: a redirect, a rendered template, a 404, or
a request aborted by an unhandled exception (HTTP 500). -/
inductive Response where
  | redirect (e : Endpoint)
  | render (template : String)
  | notFound
  | serverError
deriving DecidableEq

/-- HTTP method of a request. -/
inductive Method where
  | GET
  | POST
deriving DecidableEq

/-- Submitted form data, `request.form`: field names to values. -/
abbrev Form := List (String × String)

/-- `request.form.get(key)`: first binding of `key`, if any. -/
def formGet (form : Form) (key : String) : Option String :=
  (form.find? (fun p => p.1 = key)).map (fun p => p.2)

/-- `request.form.get(key, d)`. -/
def formGetD (form : Form) (key : String) (d : String) : String :=
  (formGet form key).getD d

/-- Python `str.strip()`: remove leading and trailing whitespace. -/
def pyStrip (s : String) : String :=
  String.mk
    (((s.data.dropWhile Char.isWhitespace).reverse.dropWhile
        Char.isWhitespace).reverse)

/-- Digits-only character list to a natural number; `none` when empty or
any character is not a digit. -/
def digitsToNat (l : List Char) : Option Nat :=
  if l ≠ [] ∧ l.all Char.isDigit then
    some (l.foldl (fun n c => n * 10 + (c.toNat - 48)) 0)
  else
    none

/-- Python `int(s)`: strip surrounding whitespace, then parse an optionally
signed decimal integer; `none` models the `ValueError`. -/
def pyToInt (s : String) : Option Int :=
  match (pyStrip s).data with
  | '-' :: rest => (digitsToNat rest).map (fun n => -(n : Int))
  | '+' :: rest => (digitsToNat rest).map (fun n => (n : Int))
  | l => (digitsToNat l).map (fun n => (n : Int))

/-- `Product` row (`src/models.py`). -/
structure Product where
  id : Nat
  name : String
  slug : String
  category : String
  price : ℚ
  description : String
  image_url : String
  sizes : String
  in_stock : Bool
  is_featured : Bool
deriving DecidableEq

/-- `Order` row (`src/models.py`); `created_at` is a UTC timestamp. -/
structure Order where
  id : Nat
  customer_name : String
  customer_email : String
  customer_phone : String
  address : String
  items : String
  total_price : ℚ
  status : String
  created_at : Nat
deriving DecidableEq

/-- `AdminUser` row (`src/models.py`). -/
structure AdminUser where
  id : Nat
  username : String
  password_hash : String
deriving DecidableEq

/-- The persistent store, as far as the application reads and writes it. -/
structure Store where
  products : List Product
  orders : List Order
  admins : List AdminUser
deriving DecidableEq

/-- One cart line item, the dict stored under a composite key. -/
structure Item where
  id : Nat
  name : String
  price : ℚ
  size : String
  qty : Int
deriving DecidableEq

/-- The session cart: a Python dict from composite keys to line items. -/
abbrev Cart := List (String × Item)

/-- The Flask session, as far as the application uses it. -/
structure Session where
  cart : Cart
  admin_id : Option Nat
deriving DecidableEq

/-- Python dict lookup `cart.get(key)` / `cart[key]`: value at the first
occurrence of `key`. -/
def cartGet (cart : Cart) (key : String) : Option Item :=
  (cart.find? (fun e => e.1 = key)).map (fun e => e.2)

/-- Python dict assignment `cart[key] = v`: replace the value at the first
occurrence of `key`, or append a new binding when `key` is absent. -/
def dictSet (cart : Cart) (key : String) (v : Item) : Cart :=
  match cart with
  | [] => [(key, v)]
  | e :: rest =>
    if e.1 = key then (key, v) :: rest else e :: dictSet rest key v

/-- Replace every occurrence of the character `c` by the string `rep`:
Python `str.replace` for a single-character pattern. -/
def replChar (c : Char) (rep : List Char) : List Char → List Char
  | [] => []
  | x :: xs => (if x = c then rep else [x]) ++ replChar c rep xs

/-- `slugify` (`src/app.py`): lowercase, then replace `" "` by `"-"`,
`"/"` by `"-"`, and `"&"` by `"and"`, in that order. -/
def slugify (s : String) : String :=
  String.mk
    (replChar '&' ['a', 'n', 'd']
      (replChar '/' ['-']
        (replChar ' ' ['-']
          (s.data.map Char.toLower))))

/-- The spec's reading of slug derivation, as a single character-wise pass:
lowercase each character, map spaces and slashes to hyphens and ampersands
to the literal word "and". -/
def slugCharSpec (c : Char) : List Char :=
  let c := c.toLower
  if c = ' ' then ['-']
  else if c = '/' then ['-']
  else if c = '&' then ['a', 'n', 'd']
  else [c]

/-- Character-wise slug derivation following the spec's words. -/
def slugifySpec (s : String) : String :=
  String.mk (s.data.map slugCharSpec).flatten

/-- `Product.query.get(product_id)`: lookup by primary key. -/
def findProduct (products : List Product) (pid : Nat) : Option Product :=
  products.find? (fun p => p.id = pid)

/-- Result of a cart route: the new session cart, the request's flash
messages, and the response. -/
structure CartResult where
  cart : Cart
  flashes : List Flash
  response : Response
deriving DecidableEq

/-- The trimmed `size` field of an add-to-cart form:
`(request.form.get("size") or "").strip()`. -/
def addSize (form : Form) : String :=
  (formGetD form "size" "") |> pyStrip

/-- The parsed and clamped quantity of an add-to-cart form:
`request.form.get("qty", "1")` run through `int()`, defaulting to 1 on a
parse error and clamped up to 1. -/
def addQty (form : Form) : Int :=
  let qty : Int :=
    match pyToInt (formGetD form "qty" "1") with
    | none => 1
    | some q => q
  if qty < 1 then 1 else qty

/-- The composite cart key of an add-to-cart request:
`f"{product_id}-{size or 'nosize'}"`. -/
def addKey (pid : Nat) (form : Form) : String :=
  let size := addSize form
  toString pid ++ "-" ++ (if size = "" then "nosize" else size)

/-- `add_to_cart` (`src/app.py`): reject a missing product with 404 and an
out-of-stock product with a warning; otherwise accumulate the quantity on
the existing line item under the composite key, or insert a fresh line item
capturing the product's id, name and price. -/
def add_to_cart (products : List Product) (pid : Nat) (form : Form)
    (cart : Cart) : CartResult :=
  match findProduct products pid with
  | none => { cart := cart, flashes := [], response := .notFound }
  | some product =>
    if !product.in_stock then
      { cart := cart
        flashes := [("This item is out of stock.", "warning")]
        response := .redirect .productsView }
    else
      let size := addSize form
      let qty := addQty form
      let key := addKey pid form
      let cart' :=
        match cartGet cart key with
        | some it => dictSet cart key { it with qty := it.qty + qty }
        | none =>
          dictSet cart key
            { id := product.id, name := product.name, price := product.price
              size := size, qty := qty }
      { cart := cart'
        flashes := [("Added to cart.", "success")]
        response := .redirect .cartPage }

/-- The quantity `update_cart` computes for the line item `e`:
`request.form.get(f"qty_{key}", str(cart[key]["qty"]))` run through `int()`,
keeping the current quantity on a parse error. -/
def resultingQty (form : Form) (e : String × Item) : Int :=
  match pyToInt (formGetD form ("qty_" ++ e.1) (toString e.2.qty)) with
  | none => e.2.qty
  | some q => q

/-- `update_cart` (`src/app.py`): for every key of the cart, recompute the
quantity from the form; delete the line item when the result is ≤ 0,
otherwise store the new quantity. -/
def update_cart (form : Form) (cart : Cart) : CartResult :=
  let cart' :=
    cart.filterMap fun e =>
      let qty := resultingQty form e
      if qty ≤ 0 then none else some (e.1, { e.2 with qty := qty })
  { cart := cart'
    flashes := [("Cart updated.", "info")]
    response := .redirect .cartPage }

/-- The cart total, `sum(i["price"] * i["qty"] for i in cart.values())`. -/
def cartTotal (cart : Cart) : ℚ :=
  (cart.map (fun e => e.2.price * (e.2.qty : ℚ))).sum

/-- Models `str(cart)`, the serialized cart stored on the order; no claim
depends on the exact format of this serialization. -/
def reprCart (cart : Cart) : String :=
  toString (cart.map (fun e => (e.1, e.2.id, e.2.name, e.2.size, e.2.qty)))

/-- Result of the checkout route: the new session cart, the order table,
the flash messages, and the response. -/
structure CheckoutResult where
  cart : Cart
  orders : List Order
  flashes : List Flash
  response : Response
deriving DecidableEq

/-- The next autoincrement id for a list of rows with an `id` field. -/
def nextId (ids : List Nat) : Nat :=
  ids.foldr max 0 + 1

/-- `checkout` (`src/app.py`): redirect away when the cart is empty; on
POST validate the four trimmed contact fields, and when all are non-empty
create one Order (status "Pending", `created_at` the current UTC time)
with the cart total, then empty the session cart. -/
def checkout (method : Method) (form : Form) (cart : Cart)
    (orders : List Order) (now : Nat) : CheckoutResult :=
  if cart.isEmpty then
    { cart := cart, orders := orders
      flashes := [("Your cart is empty.", "warning")]
      response := .redirect .productsView }
  else
    let total := cartTotal cart
    match method with
    | .GET =>
      { cart := cart, orders := orders, flashes := []
        response := .render "checkout.html" }
    | .POST =>
      let name := (formGetD form "name" "") |> pyStrip
      let email := (formGetD form "email" "") |> pyStrip
      let phone := (formGetD form "phone" "") |> pyStrip
      let address := (formGetD form "address" "") |> pyStrip
      if name = "" ∨ email = "" ∨ phone = "" ∨ address = "" then
        { cart := cart, orders := orders
          flashes := [("Please fill in all fields.", "danger")]
          response := .redirect .checkoutR }
      else
        let oid := nextId (orders.map (fun o => o.id))
        let o : Order :=
          { id := oid
            customer_name := name, customer_email := email
            customer_phone := phone, address := address
            items := reprCart cart, total_price := total
            status := "Pending", created_at := now }
        { cart := []
          orders := orders ++ [o]
          flashes := [("Order placed! We will contact you to confirm.", "success")]
          response := .redirect (.orderSuccess oid) }

/-- `is_admin` (`src/app.py`): `bool(session.get("admin_id"))` — false when
the key is absent and when it holds the falsy integer 0. -/
def is_admin (s : Session) : Bool :=
  match s.admin_id with
  | none => false
  | some n => n ≠ 0

/-- Result of an admin route: new session, new store, flashes, response. -/
structure AdminResult where
  session : Session
  store : Store
  flashes : List Flash
  response : Response
deriving DecidableEq

/-- `admin_login` (`src/app.py`), parameterized by the password verifier
`verify hash password` that models `check_password_hash`. On POST, look up
the submitted username; on a verified password store the admin id in the
session and redirect to the dashboard; otherwise flash the one generic
failure message and re-render the login form. -/
def admin_login (verify : String → String → Bool) (method : Method)
    (form : Form) (sess : Session) (store : Store) : AdminResult :=
  match method with
  | .GET =>
    { session := sess, store := store, flashes := []
      response := .render "admin_login.html" }
  | .POST =>
    let username := (formGetD form "username" "") |> pyStrip
    let password := (formGetD form "password" "") |> pyStrip
    match store.admins.find? (fun u => u.username = username) with
    | some user =>
      if verify user.password_hash password then
        { session := { sess with admin_id := some user.id }
          store := store
          flashes := [("Welcome, admin.", "success")]
          response := .redirect .adminDashboard }
      else
        { session := sess, store := store
          flashes := [("Invalid credentials.", "danger")]
          response := .render "admin_login.html" }
    | none =>
      { session := sess, store := store
        flashes := [("Invalid credentials.", "danger")]
        response := .render "admin_login.html" }

/-- `admin_dashboard` (`src/app.py`): gate on `is_admin`, then render the
dashboard template. -/
def admin_dashboard (sess : Session) (store : Store) : AdminResult :=
  if !is_admin sess then
    { session := sess, store := store, flashes := []
      response := .redirect .adminLogin }
  else
    { session := sess, store := store, flashes := []
      response := .render "admin_dashboard.html" }

/-- Split a character list on a separator character. -/
def splitOnChar (c : Char) : List Char → List (List Char)
  | [] => [[]]
  | x :: xs =>
    let r := splitOnChar c xs
    if x = c then [] :: r
    else
      match r with
      | [] => [[x]]
      | h :: t => (x :: h) :: t

/-- Python `float(s)` restricted to plain decimal literals (optional sign,
optional fractional part); `none` models the `ValueError`. -/
def pyToFloat (s : String) : Option ℚ :=
  let t := (pyStrip s).data
  let (neg, rest) : Bool × List Char :=
    match t with
    | '-' :: r => (true, r)
    | '+' :: r => (false, r)
    | r => (false, r)
  let mag : Option ℚ :=
    match splitOnChar '.' rest with
    | [a] => (digitsToNat a).map (fun n => (n : ℚ))
    | [a, b] =>
      if a = [] ∧ b = [] then none
      else
        let ipart : Option Nat := if a = [] then some 0 else digitsToNat a
        let fpart : Option ℚ :=
          if b = [] then some 0
          else (digitsToNat b).map (fun n => (n : ℚ) / (10 ^ b.length : ℚ))
        match ipart, fpart with
        | some i, some f => some ((i : ℚ) + f)
        | _, _ => none
    | _ => none
  mag.map (fun m => if neg then -m else m)

/-- Python truthiness of `request.form.get("is_featured")`: `None` and the
empty string are falsy, any other string truthy. -/
def pyTruthy (o : Option String) : Bool :=
  match o with
  | none => false
  | some s => s ≠ ""

/-- `admin_products` (`src/app.py`): gate on `is_admin`; on POST validate
name, category and price, derive the slug (suffixing `-{timestamp}` when
the exact slug already exists) and commit the new product in stock; then
render the product list. The commit honours the UNIQUE constraint on
`Product.slug` (`src/models.py`): a commit that would store a duplicate
slug raises `IntegrityError` — nothing is stored, the success flash is
never reached, and the unhandled exception aborts the request. -/
def admin_products (method : Method) (form : Form) (sess : Session)
    (store : Store) (now : Nat) : AdminResult :=
  if !is_admin sess then
    { session := sess, store := store, flashes := []
      response := .redirect .adminLogin }
  else
    match method with
    | .GET =>
      { session := sess, store := store, flashes := []
        response := .render "admin_products.html" }
    | .POST =>
      let name := (formGetD form "name" "") |> pyStrip
      let category := (formGetD form "category" "") |> pyStrip
      let price_raw := (formGetD form "price" "0") |> pyStrip
      let description := (formGetD form "description" "") |> pyStrip
      let image_url := (formGetD form "image_url" "") |> pyStrip
      let sizes := (formGetD form "sizes" "") |> pyStrip
      let is_featured := pyTruthy (formGet form "is_featured")
      let price : ℚ := (pyToFloat price_raw).getD 0
      if name = "" ∨ category = "" ∨ price ≤ 0 then
        { session := sess, store := store
          flashes := [("Name, category & valid price required.", "danger")]
          response := .render "admin_products.html" }
      else
        let slug := slugify name
        let slug :=
          if (store.products.find? (fun p => p.slug = slug)).isSome then
            slug ++ "-" ++ toString now
          else slug
        let p : Product :=
          { id := nextId (store.products.map (fun q => q.id))
            name := name, slug := slug, category := category
            price := price, description := description
            image_url := image_url, sizes := sizes
            is_featured := is_featured, in_stock := true }
        if (store.products.find? (fun q => q.slug = p.slug)).isSome then
          { session := sess, store := store, flashes := []
            response := .serverError }
        else
          { session := sess
            store := { store with products := store.products ++ [p] }
            flashes := [("Product added.", "success")]
            response := .render "admin_products.html" }

/-- `admin_toggle_stock` (`src/app.py`): gate on `is_admin`; 404 on a
missing product; otherwise flip the product's `in_stock` flag and redirect
back to the product list. -/
def admin_toggle_stock (pid : Nat) (sess : Session) (store : Store) :
    AdminResult :=
  if !is_admin sess then
    { session := sess, store := store, flashes := []
      response := .redirect .adminLogin }
  else
    match findProduct store.products pid with
    | none =>
      { session := sess, store := store, flashes := []
        response := .notFound }
    | some _ =>
      let products' :=
        store.products.map fun p =>
          if p.id = pid then { p with in_stock := !p.in_stock } else p
      { session := sess
        store := { store with products := products' }
        flashes := [("Stock status updated.", "info")]
        response := .redirect .adminProducts }

theorem replChar_append (c : Char) (rep : List Char) (l₁ l₂ : List Char) :
    replChar c rep (l₁ ++ l₂) = replChar c rep l₁ ++ replChar c rep l₂ := by
  induction l₁ with
  | nil => simp [replChar]
  | cons x xs ih => simp [replChar, ih]

theorem slugify_eq_spec (s : String) : slugify s = slugifySpec s := by
  unfold slugify slugifySpec
  congr 1
  induction s.data with
  | nil => simp [replChar]
  | cons x xs ih =>
    simp only [List.map_cons, List.flatten, replChar_append, replChar]
    rw [ih]
    congr 1
    by_cases h1 : x.toLower = ' '
    · simp [h1, replChar, slugCharSpec]
    · by_cases h2 : x.toLower = '/'
      · simp [h1, h2, replChar, slugCharSpec]
      · by_cases h3 : x.toLower = '&'
        · simp [h1, h2, h3, replChar, slugCharSpec]
        · simp [h1, h2, h3, replChar, slugCharSpec]

/-! ### Helper lemmas about the dict model -/

theorem eq_of_nodup_keys {α : Type} {l : List (String × α)}
    (h : (l.map Prod.fst).Nodup) {a b : String × α}
    (ha : a ∈ l) (hb : b ∈ l) (hk : a.1 = b.1) : a = b := by
  induction l with
  | nil => cases ha
  | cons x xs ih =>
    simp only [List.map_cons, List.nodup_cons] at h
    rcases List.mem_cons.mp ha with rfl | ha' <;>
      rcases List.mem_cons.mp hb with rfl | hb'
    · rfl
    · exact absurd (hk ▸ List.mem_map_of_mem Prod.fst hb') h.1
    · exact absurd (hk ▸ List.mem_map_of_mem Prod.fst ha') h.1
    · exact ih h.2 ha' hb'

theorem mem_dictSet {c : Cart} {k : String} {v : Item} {e : String × Item}
    (he : e ∈ dictSet c k v) : e = (k, v) ∨ e ∈ c := by
  induction c with
  | nil => simpa [dictSet] using he
  | cons x xs ih =>
    by_cases hx : x.1 = k
    · simp only [dictSet, if_pos hx, List.mem_cons] at he
      rcases he with rfl | h
      · exact Or.inl rfl
      · exact Or.inr (List.mem_cons_of_mem _ h)
    · simp only [dictSet, if_neg hx, List.mem_cons] at he
      rcases he with rfl | h
      · exact Or.inr (List.mem_cons_self _ _)
      · rcases ih h with h1 | h2
        · exact Or.inl h1
        · exact Or.inr (List.mem_cons_of_mem _ h2)

theorem cartGet_dictSet_self (c : Cart) (k : String) (v : Item) :
    cartGet (dictSet c k v) k = some v := by
  induction c with
  | nil => simp [dictSet, cartGet]
  | cons x xs ih =>
    by_cases hx : x.1 = k
    · simp [dictSet, if_pos hx, cartGet]
    · simp only [dictSet, if_neg hx]
      simpa [cartGet, List.find?_cons_of_neg, hx] using ih

theorem cartGet_mem {cart : Cart} {k : String} {it : Item}
    (h : cartGet cart k = some it) : ∃ e ∈ cart, e.1 = k ∧ e.2 = it := by
  unfold cartGet at h
  rcases Option.map_eq_some'.mp h with ⟨e, hfind, hsnd⟩
  refine ⟨e, List.mem_of_find?_eq_some hfind, ?_, hsnd⟩
  have := List.find?_some hfind
  simpa using this

theorem countP_keys_dictSet (c : Cart) (k : String) (v : Item)
    (h : (c.map Prod.fst).Nodup) :
    (dictSet c k v).countP (fun e => e.1 = k) = 1 := by
  induction c with
  | nil => simp [dictSet]
  | cons x xs ih =>
    simp only [List.map_cons, List.nodup_cons] at h
    by_cases hx : x.1 = k
    · simp only [dictSet, if_pos hx]
      have hz : xs.countP (fun e => decide (e.1 = k)) = 0 := by
        refine List.countP_eq_zero.mpr ?_
        intro e he
        simp only [decide_eq_true_eq]
        intro hek
        exact h.1 (hx ▸ hek ▸ List.mem_map_of_mem Prod.fst he)
      simp [List.countP_cons, hz]
    · simp only [dictSet, if_neg hx]
      have := ih h.2
      simp only [List.countP_cons, this]
      simp [hx]

theorem dictSet_update_eq_map (c : Cart) (k : String) (q : Int) (it : Item)
    (h : (c.map Prod.fst).Nodup) (hget : cartGet c k = some it) :
    dictSet c k { it with qty := it.qty + q } =
      c.map (fun e =>
        if e.1 = k then (e.1, { e.2 with qty := e.2.qty + q }) else e) := by
  induction c with
  | nil => simp [cartGet] at hget
  | cons x xs ih =>
    simp only [List.map_cons, List.nodup_cons] at h
    by_cases hx : x.1 = k
    · have hit : it = x.2 := by
        have hx2 : cartGet (x :: xs) k = some x.2 := by
          simp [cartGet, List.find?_cons_of_pos, hx]
        rw [hx2] at hget
        exact (Option.some_inj.mp hget).symm
      subst hit
      have hconst : ∀ e ∈ xs, (if e.1 = k then
          ((e.1, { e.2 with qty := e.2.qty + q }) : String × Item) else e) = e := by
        intro e he
        have hek : e.1 ≠ k := fun hek =>
          h.1 (hx ▸ hek ▸ List.mem_map_of_mem Prod.fst he)
        simp [hek]
      have htail : xs.map (fun e =>
          if e.1 = k then (e.1, { e.2 with qty := e.2.qty + q }) else e) = xs := by
        simpa using List.map_congr_left hconst
      simp only [dictSet, if_pos hx, List.map_cons, htail]
      rw [hx]
    · have hget' : cartGet xs k = some it := by
        simpa [cartGet, List.find?_cons_of_neg, hx] using hget
      simp only [dictSet, if_neg hx, List.map_cons]
      rw [ih h.2 hget']

/-! ### Claim theorems -/

/-- Claim C7: the slug-derivation function lowercases its input and replaces
every space with a hyphen, every slash with a hyphen, and every ampersand
with the literal word "and"; in particular
slugify "Silk & Cotton Saree/Set" = "silk-and-cotton-saree-set". -/
theorem C7_slugify_charwise :
    (∀ s : String, slugify s = slugifySpec s) ∧
      slugify "Silk & Cotton Saree/Set" = "silk-and-cotton-saree-set" :=
  ⟨slugify_eq_spec, by decide⟩

/-! ### Concrete fixtures for witnesses -/

/-- An in-stock sample product, used by witnesses. -/
def sampleInStock : Product :=
  { id := 5, name := "Nokshi Handloom Saree", slug := "nokshi-handloom-saree"
    category := "Saree", price := 65, description := "", image_url := ""
    sizes := "S,M,L,XL", in_stock := true, is_featured := true }

/-- An out-of-stock sample product, used by witnesses. -/
def sampleOutOfStock : Product :=
  { id := 7, name := "Embroidered Salwar Kameez"
    slug := "embroidered-salwar-kameez", category := "Salwar", price := 55
    description := "", image_url := "", sizes := "", in_stock := false
    is_featured := false }

/-- A sample cart line item under key "5-M", used by witnesses. -/
def sampleItem : Item :=
  { id := 5, name := "Nokshi Handloom Saree", price := 65, size := "M"
    qty := 2 }

/-- A one-line sample cart, used by witnesses. -/
def sampleCart : Cart := [("5-M", sampleItem)]

/-- Claim C8: adding an existing but out-of-stock product leaves the cart
exactly unchanged, flashes the warning "This item is out of stock.", and
redirects to the shop listing. -/
theorem C8_add_out_of_stock (products : List Product) (pid : Nat)
    (form : Form) (cart : Cart) (p : Product)
    (hp : findProduct products pid = some p) (hs : p.in_stock = false) :
    add_to_cart products pid form cart =
      { cart := cart
        flashes := [("This item is out of stock.", "warning")]
        response := .redirect .productsView } := by
  unfold add_to_cart
  rw [hp]
  simp [hs]

theorem C8_add_out_of_stock_witness :
    findProduct [sampleOutOfStock] 7 = some sampleOutOfStock ∧
      sampleOutOfStock.in_stock = false ∧
      add_to_cart [sampleOutOfStock] 7 [("qty", "2")] sampleCart =
        { cart := sampleCart
          flashes := [("This item is out of stock.", "warning")]
          response := .redirect .productsView } :=
  ⟨by decide, by decide,
    C8_add_out_of_stock [sampleOutOfStock] 7 [("qty", "2")] sampleCart
      sampleOutOfStock (by decide) (by decide)⟩

/-- Claim C4: after any cart operation every line item present has
quantity ≥ 1: the add-to-cart quantity is clamped up to 1, add-to-cart
preserves the ≥ 1 invariant, update-cart unconditionally establishes it,
and update-cart removes a key entirely when its resulting quantity is
≤ 0. -/
theorem C4_cart_qty_invariant (products : List Product) (pid : Nat)
    (form : Form) (cart : Cart) :
    1 ≤ addQty form ∧
    ((∀ e ∈ cart, 1 ≤ e.2.qty) →
      ∀ e ∈ (add_to_cart products pid form cart).cart, 1 ≤ e.2.qty) ∧
    (∀ e ∈ (update_cart form cart).cart, 1 ≤ e.2.qty) ∧
    ((cart.map Prod.fst).Nodup →
      ∀ e ∈ cart, resultingQty form e ≤ 0 →
        ∀ it : Item, (e.1, it) ∉ (update_cart form cart).cart) := by
  have hq : 1 ≤ addQty form := by
    unfold addQty
    dsimp only
    split <;> omega
  refine ⟨hq, ?_, ?_, ?_⟩
  · intro hwf e he
    unfold add_to_cart at he
    cases hfp : findProduct products pid with
    | none => rw [hfp] at he; exact hwf e he
    | some p =>
      rw [hfp] at he
      by_cases hs : p.in_stock
      · simp only [hs, Bool.not_true, Bool.false_eq_true, if_false] at he
        cases hcg : cartGet cart (addKey pid form) with
        | some it =>
          rw [hcg] at he
          rcases mem_dictSet he with rfl | hmem
          · rcases cartGet_mem hcg with ⟨e', he', _, h2⟩
            have := hwf e' he'
            rw [h2] at this
            simp only
            omega
          · exact hwf _ hmem
        | none =>
          rw [hcg] at he
          rcases mem_dictSet he with rfl | hmem
          · exact hq
          · exact hwf _ hmem
      · simp only [hs] at he
        exact hwf e (by simpa using he)
  · intro e he
    unfold update_cart at he
    simp only [List.mem_filterMap] at he
    rcases he with ⟨a, _, hfa⟩
    by_cases hle : resultingQty form a ≤ 0
    · simp [hle] at hfa
    · simp only [hle, if_false, Option.some_inj] at hfa
      rw [← hfa]
      dsimp only
      omega
  · intro hnd e he hle it hmem
    unfold update_cart at hmem
    simp only [List.mem_filterMap] at hmem
    rcases hmem with ⟨a, ha, hfa⟩
    by_cases hale : resultingQty form a ≤ 0
    · simp [hale] at hfa
    · simp only [hale, if_false, Option.some_inj] at hfa
      have hkey := congrArg Prod.fst hfa
      dsimp only at hkey
      have hae : a = e := eq_of_nodup_keys hnd ha he hkey
      rw [hae] at hale
      exact hale hle

theorem C4_cart_qty_invariant_witness :
    (∀ e ∈ sampleCart, 1 ≤ e.2.qty) ∧
    (∀ e ∈ (add_to_cart [sampleInStock] 5 [("size", "M"), ("qty", "-4")]
        sampleCart).cart, 1 ≤ e.2.qty) ∧
    (∀ e ∈ (update_cart [("qty_5-M", "abc")] sampleCart).cart,
      1 ≤ e.2.qty) ∧
    (sampleCart.map Prod.fst).Nodup ∧
    ("5-M", sampleItem) ∈ sampleCart ∧
    resultingQty [("qty_5-M", "0")] ("5-M", sampleItem) ≤ 0 ∧
    ("5-M", sampleItem) ∉ (update_cart [("qty_5-M", "0")] sampleCart).cart :=
  ⟨by decide,
    (C4_cart_qty_invariant [sampleInStock] 5 [("size", "M"), ("qty", "-4")]
      sampleCart).2.1 (by decide),
    (C4_cart_qty_invariant [sampleInStock] 5 [("qty_5-M", "abc")]
      sampleCart).2.2.1,
    by decide, by decide, by decide,
    (C4_cart_qty_invariant [sampleInStock] 5 [("qty_5-M", "0")]
      sampleCart).2.2.2 (by decide) ("5-M", sampleItem) (by decide)
      (by decide) sampleItem⟩

/-- Claim C5: adding an in-stock product uses the composite key
`"{product_id}-{size or 'nosize'}"`; with distinct cart keys the resulting
cart holds exactly one line item under that key — the existing item with
its quantity incremented when the key was present, otherwise a fresh item
capturing the product's id, current name, current price, the size and the
quantity. -/
theorem C5_add_accumulates (products : List Product) (pid : Nat)
    (form : Form) (cart : Cart) (p : Product)
    (hp : findProduct products pid = some p) (hs : p.in_stock = true)
    (hnd : (cart.map Prod.fst).Nodup) :
    (add_to_cart products pid form cart).cart.countP
        (fun e => e.1 = addKey pid form) = 1 ∧
    cartGet (add_to_cart products pid form cart).cart (addKey pid form) =
      some (match cartGet cart (addKey pid form) with
        | some it => { it with qty := it.qty + addQty form }
        | none =>
          { id := p.id, name := p.name, price := p.price
            size := addSize form, qty := addQty form }) := by
  unfold add_to_cart
  rw [hp]
  simp only [hs, Bool.not_true, Bool.false_eq_true, if_false]
  cases hcg : cartGet cart (addKey pid form) <;>
    simp [hcg, countP_keys_dictSet _ _ _ hnd, cartGet_dictSet_self]

theorem C5_add_accumulates_witness :
    findProduct [sampleInStock] 5 = some sampleInStock ∧
    sampleInStock.in_stock = true ∧
    (sampleCart.map Prod.fst).Nodup ∧
    ((add_to_cart [sampleInStock] 5 [("size", "M"), ("qty", "3")]
        sampleCart).cart.countP (fun e => e.1 = "5-M") = 1 ∧
      cartGet (add_to_cart [sampleInStock] 5 [("size", "M"), ("qty", "3")]
          sampleCart).cart "5-M" = some { sampleItem with qty := 5 }) :=
  ⟨by decide, by decide, by decide, by
    have h := C5_add_accumulates [sampleInStock] 5
      [("size", "M"), ("qty", "3")] sampleCart sampleInStock
      (by decide) (by decide) (by decide)
    have hkey : addKey 5 [("size", "M"), ("qty", "3")] = "5-M" := by decide
    rw [hkey] at h
    refine ⟨h.1, ?_⟩
    rw [h.2]
    decide⟩

/-- Claim C10: when add-to-cart hits an existing composite key, the new
cart is the old cart with only that entry's quantity incremented — its
stored name, price and size are the captured values, and every other key's
entry is unchanged. -/
theorem C10_add_existing_key_frame (products : List Product) (pid : Nat)
    (form : Form) (cart : Cart) (p : Product) (it : Item)
    (hp : findProduct products pid = some p) (hs : p.in_stock = true)
    (hnd : (cart.map Prod.fst).Nodup)
    (hit : cartGet cart (addKey pid form) = some it) :
    (add_to_cart products pid form cart).cart =
      cart.map (fun e =>
        if e.1 = addKey pid form then
          (e.1, { e.2 with qty := e.2.qty + addQty form })
        else e) := by
  unfold add_to_cart
  rw [hp]
  simp only [hs, Bool.not_true, Bool.false_eq_true, if_false, hit]
  exact dictSet_update_eq_map cart (addKey pid form) (addQty form) it hnd hit

theorem C10_add_existing_key_frame_witness :
    findProduct [sampleInStock] 5 = some sampleInStock ∧
    sampleInStock.in_stock = true ∧
    ((("5-M", sampleItem) :: [("7-nosize", { sampleItem with id := 7 })]
        : Cart).map Prod.fst).Nodup ∧
    cartGet [("5-M", sampleItem), ("7-nosize", { sampleItem with id := 7 })]
      (addKey 5 [("size", "M"), ("qty", "3")]) = some sampleItem ∧
    (add_to_cart [sampleInStock] 5 [("size", "M"), ("qty", "3")]
        [("5-M", sampleItem),
          ("7-nosize", { sampleItem with id := 7 })]).cart =
      [("5-M", { sampleItem with qty := 5 }),
        ("7-nosize", { sampleItem with id := 7 })] :=
  ⟨by decide, by decide, by decide, by decide, by
    have h := C10_add_existing_key_frame [sampleInStock] 5
      [("size", "M"), ("qty", "3")]
      [("5-M", sampleItem), ("7-nosize", { sampleItem with id := 7 })]
      sampleInStock sampleItem (by decide) (by decide) (by decide)
      (by decide)
    rw [h]
    decide⟩

/-- A valid checkout contact form, used by witnesses. -/
def contactForm : Form :=
  [("name", "Amin Ara"), ("email", "amin@example.com"),
    ("phone", "01700000000"), ("address", "12 Nokshi Lane, Dhaka")]

/-- Claim C1: for every non-empty cart, a checkout POST whose four trimmed
contact fields are all non-empty creates exactly one Order whose
total_price is the cart total, whose status is "Pending" and whose
created_at is the current UTC timestamp, and empties the session cart. -/
theorem C1_checkout_success (form : Form) (cart : Cart)
    (orders : List Order) (now : Nat)
    (hc : cart ≠ [])
    (hn : (formGetD form "name" "" |> pyStrip) ≠ "")
    (he : (formGetD form "email" "" |> pyStrip) ≠ "")
    (hph : (formGetD form "phone" "" |> pyStrip) ≠ "")
    (ha : (formGetD form "address" "" |> pyStrip) ≠ "") :
    ∃ o : Order,
      (checkout .POST form cart orders now).orders = orders ++ [o] ∧
      o.total_price = cartTotal cart ∧
      o.status = "Pending" ∧
      o.created_at = now ∧
      (checkout .POST form cart orders now).cart = [] := by
  have hemp : cart.isEmpty = false := by
    cases cart with
    | nil => exact absurd rfl hc
    | cons a l => rfl
  have hcond : ¬((formGetD form "name" "" |> pyStrip) = "" ∨
      (formGetD form "email" "" |> pyStrip) = "" ∨
      (formGetD form "phone" "" |> pyStrip) = "" ∨
      (formGetD form "address" "" |> pyStrip) = "") := by
    push_neg
    exact ⟨hn, he, hph, ha⟩
  unfold checkout
  simp only [hemp, Bool.false_eq_true, if_false, if_neg hcond]
  exact ⟨_, rfl, rfl, rfl, rfl, trivial⟩

theorem C1_checkout_success_witness :
    sampleCart ≠ [] ∧
    (formGetD contactForm "name" "" |> pyStrip) ≠ "" ∧
    (formGetD contactForm "email" "" |> pyStrip) ≠ "" ∧
    (formGetD contactForm "phone" "" |> pyStrip) ≠ "" ∧
    (formGetD contactForm "address" "" |> pyStrip) ≠ "" ∧
    (∃ o : Order,
      (checkout .POST contactForm sampleCart [] 9).orders = [] ++ [o] ∧
      o.total_price = cartTotal sampleCart ∧
      o.status = "Pending" ∧
      o.created_at = 9 ∧
      (checkout .POST contactForm sampleCart [] 9).cart = []) :=
  ⟨by decide, by decide, by decide, by decide, by decide,
    C1_checkout_success contactForm sampleCart [] 9 (by decide) (by decide)
      (by decide) (by decide) (by decide)⟩

/-- Claim C2: checkout creates an Order only for a POST on a non-empty
cart with all four trimmed fields non-empty; an empty cart (either method)
yields the "warning" flash and a redirect to the shop listing with nothing
rendered, and a POST with a blank field yields the "danger" flash
"Please fill in all fields." and a redirect back to the checkout route
with the cart and the order table unchanged. -/
theorem C2_checkout_guards (m : Method) (form : Form) (cart : Cart)
    (orders : List Order) (now : Nat) :
    (cart = [] →
      checkout m form cart orders now =
        { cart := cart, orders := orders
          flashes := [("Your cart is empty.", "warning")]
          response := .redirect .productsView }) ∧
    (cart ≠ [] →
      ((formGetD form "name" "" |> pyStrip) = "" ∨
        (formGetD form "email" "" |> pyStrip) = "" ∨
        (formGetD form "phone" "" |> pyStrip) = "" ∨
        (formGetD form "address" "" |> pyStrip) = "") →
      checkout .POST form cart orders now =
        { cart := cart, orders := orders
          flashes := [("Please fill in all fields.", "danger")]
          response := .redirect .checkoutR }) ∧
    ((checkout m form cart orders now).orders ≠ orders →
      cart ≠ [] ∧ m = .POST ∧
        (formGetD form "name" "" |> pyStrip) ≠ "" ∧
        (formGetD form "email" "" |> pyStrip) ≠ "" ∧
        (formGetD form "phone" "" |> pyStrip) ≠ "" ∧
        (formGetD form "address" "" |> pyStrip) ≠ "") := by
  refine ⟨?_, ?_, ?_⟩
  · intro h
    subst h
    rfl
  · intro hc hor
    have hemp : cart.isEmpty = false := by
      cases cart with
      | nil => exact absurd rfl hc
      | cons a l => rfl
    unfold checkout
    simp only [hemp, Bool.false_eq_true, if_false, if_pos hor]
  · intro hne
    by_cases hcart : cart = []
    · subst hcart
      simp [checkout] at hne
    · have hemp : cart.isEmpty = false := by
        cases cart with
        | nil => exact absurd rfl hcart
        | cons a l => rfl
      cases m with
      | GET =>
        unfold checkout at hne
        simp [hemp] at hne
      | POST =>
        refine ⟨hcart, rfl, ?_⟩
        by_cases hall : ((formGetD form "name" "" |> pyStrip) = "" ∨
            (formGetD form "email" "" |> pyStrip) = "" ∨
            (formGetD form "phone" "" |> pyStrip) = "" ∨
            (formGetD form "address" "" |> pyStrip) = "")
        · unfold checkout at hne
          simp [hemp, hall] at hne
        · push_neg at hall
          exact hall

theorem C2_checkout_guards_witness :
    (checkout .GET [] [] [] 0 =
      { cart := [], orders := []
        flashes := [("Your cart is empty.", "warning")]
        response := .redirect .productsView }) ∧
    (checkout .POST [("name", "Amin Ara")] sampleCart [] 0 =
      { cart := sampleCart, orders := []
        flashes := [("Please fill in all fields.", "danger")]
        response := .redirect .checkoutR }) ∧
    (sampleCart ≠ [] ∧ Method.POST = Method.POST ∧
      (formGetD contactForm "name" "" |> pyStrip) ≠ "" ∧
      (formGetD contactForm "email" "" |> pyStrip) ≠ "" ∧
      (formGetD contactForm "phone" "" |> pyStrip) ≠ "" ∧
      (formGetD contactForm "address" "" |> pyStrip) ≠ "") :=
  ⟨(C2_checkout_guards .GET [] [] [] 0).1 rfl,
    (C2_checkout_guards .POST [("name", "Amin Ara")] sampleCart [] 0).2.1
      (by decide) (by decide),
    (C2_checkout_guards .POST contactForm sampleCart [] 9).2.2
      (by decide)⟩

/-- A session with no admin identifier, used by witnesses. -/
def anonSession : Session := { cart := [], admin_id := none }

/-- A session carrying an admin identifier, used by witnesses. -/
def adminSession : Session := { cart := [], admin_id := some 1 }

/-- An empty store, used by witnesses. -/
def emptyStore : Store := { products := [], orders := [], admins := [] }

/-- A store holding the default admin account, used by witnesses. -/
def adminsStore : Store :=
  { products := [], orders := []
    admins := [{ id := 1, username := "admin", password_hash := "h" }] }

/-- Claim C6: every admin-area route (dashboard, product management GET
and POST, stock toggle) on a session without an admin identifier returns
a bare redirect to the login route: the store is unchanged, no flash is
set and no template is rendered. -/
theorem C6_admin_gate (sess : Session) (store : Store) (m : Method)
    (form : Form) (pid : Nat) (now : Nat)
    (h : is_admin sess = false) :
    admin_dashboard sess store =
      { session := sess, store := store, flashes := []
        response := .redirect .adminLogin } ∧
    admin_products m form sess store now =
      { session := sess, store := store, flashes := []
        response := .redirect .adminLogin } ∧
    admin_toggle_stock pid sess store =
      { session := sess, store := store, flashes := []
        response := .redirect .adminLogin } := by
  unfold admin_dashboard admin_products admin_toggle_stock
  simp [h]

theorem C6_admin_gate_witness :
    is_admin anonSession = false ∧
    admin_dashboard anonSession adminsStore =
      { session := anonSession, store := adminsStore, flashes := []
        response := .redirect .adminLogin } ∧
    admin_products .POST [("name", "X")] anonSession adminsStore 3 =
      { session := anonSession, store := adminsStore, flashes := []
        response := .redirect .adminLogin } ∧
    admin_toggle_stock 1 anonSession adminsStore =
      { session := anonSession, store := adminsStore, flashes := []
        response := .redirect .adminLogin } :=
  ⟨by decide,
    (C6_admin_gate anonSession adminsStore .POST [("name", "X")] 1 3
      (by decide)).1,
    (C6_admin_gate anonSession adminsStore .POST [("name", "X")] 1 3
      (by decide)).2.1,
    (C6_admin_gate anonSession adminsStore .POST [("name", "X")] 1 3
      (by decide)).2.2⟩

/-- Claim C9: every failing login POST — unknown username, or known
username with a password the verifier rejects — produces the identical
result: the one "danger" flash "Invalid credentials.", the re-rendered
login form with no redirect, and an unchanged session, so the two failure
causes are indistinguishable to the client. -/
theorem C9_login_failure_uniform (verify : String → String → Bool)
    (form : Form) (sess : Session) (store : Store)
    (h : ∀ u : AdminUser,
      store.admins.find?
          (fun a => a.username = (formGetD form "username" "" |> pyStrip)) =
        some u →
      verify u.password_hash (formGetD form "password" "" |> pyStrip) =
        false) :
    admin_login verify .POST form sess store =
      { session := sess, store := store
        flashes := [("Invalid credentials.", "danger")]
        response := .render "admin_login.html" } := by
  unfold admin_login
  dsimp only
  cases hf : store.admins.find?
      (fun a => a.username = (formGetD form "username" "" |> pyStrip)) with
  | none => rfl
  | some u => simp [h u hf]

theorem C9_login_failure_uniform_witness :
    admin_login (fun _ _ => false) .POST
        [("username", "admin"), ("password", "guess")] anonSession
        adminsStore =
      { session := anonSession, store := adminsStore
        flashes := [("Invalid credentials.", "danger")]
        response := .render "admin_login.html" } ∧
    admin_login (fun _ _ => true) .POST
        [("username", "ghost"), ("password", "pw")] anonSession
        adminsStore =
      { session := anonSession, store := adminsStore
        flashes := [("Invalid credentials.", "danger")]
        response := .render "admin_login.html" } :=
  ⟨C9_login_failure_uniform (fun _ _ => false)
      [("username", "admin"), ("password", "guess")] anonSession adminsStore
      (fun _ _ => rfl),
    C9_login_failure_uniform (fun _ _ => true)
      [("username", "ghost"), ("password", "pw")] anonSession adminsStore
      (fun u hu => by
        rw [show adminsStore.admins.find?
            (fun a => a.username =
              (formGetD [("username", "ghost"), ("password", "pw")]
                "username" "" |> pyStrip)) = none from by decide] at hu
        exact Option.noConfusion hu)⟩

/-- A product with slug "x", as created by an earlier add of name "x". -/
def clashP1 : Product :=
  { id := 1, name := "X", slug := "x", category := "c", price := 5
    description := "", image_url := "", sizes := "", in_stock := true
    is_featured := false }

/-- A product already bearing the timestamp-suffixed slug "x-5". -/
def clashP2 : Product :=
  { id := 2, name := "X twin", slug := "x-5", category := "c", price := 5
    description := "", image_url := "", sizes := "", in_stock := true
    is_featured := false }

/-- Store of the slug-collision pair scenario: slug "x-5" pre-exists. -/
def clashStore0 : Store :=
  { products := [clashP2], orders := [], admins := [] }

/-- Store of the successful-disambiguation scenario: only slug "x". -/
def clashStore1 : Store :=
  { products := [clashP1], orders := [], admins := [] }

/-- Add-product form of the slug-collision scenarios; its name slugifies
to "x". -/
def clashForm : Form := [("name", "x"), ("category", "c"), ("price", "5")]

/-- The product the successful-disambiguation add at UTC second 9 stores:
base slug "x" collides with `clashP1`, so the stored slug is "x-9". -/
def createdClashProduct : Product :=
  { id := 2, name := "x", slug := "x-9", category := "c", price := 5
    description := "", image_url := "", sizes := "", in_stock := true
    is_featured := false }

/-- Claim C3, counterexample: two admin add-product submissions of the
same form, whose names both slugify to "x", against a store already
holding slug "x-5". The first (at UTC second 3) is created with slug "x";
the second (at UTC second 5) derives the suffixed slug "x-5", which the
UNIQUE constraint on `Product.slug` rejects at commit: the store is
unchanged and the request aborts, so the second product of the pair is
not created at all — refuting "both products are created with distinct
slugs". -/
theorem C3_slug_clash_counterexample :
    ((admin_products .POST clashForm adminSession clashStore0
        3).store.products.map Product.slug = ["x-5", "x"]) ∧
    ((admin_products .POST clashForm adminSession
        (admin_products .POST clashForm adminSession clashStore0 3).store
        5).store =
      (admin_products .POST clashForm adminSession clashStore0 3).store) ∧
    ((admin_products .POST clashForm adminSession
        (admin_products .POST clashForm adminSession clashStore0 3).store
        5).response = .serverError) :=
  ⟨by decide, by decide, by decide⟩

/-- Claim C3, amended: a product created by add-product whose base slug
collides carries the base slug with a hyphen and the current UTC seconds
timestamp appended; when even that suffixed slug already exists, the
commit fails on the slug uniqueness constraint and no product is created;
in every case slug uniqueness across all products is preserved. -/
theorem C3_slug_unique_amended (form : Form) (sess : Session)
    (store : Store) (now : Nat)
    (hnd : (store.products.map Product.slug).Nodup) :
    ((admin_products .POST form sess store
        now).store.products.map Product.slug).Nodup ∧
    (∀ p : Product,
      (admin_products .POST form sess store now).store.products =
          store.products ++ [p] →
      slugify (formGetD form "name" "" |> pyStrip) ∈
          store.products.map Product.slug →
      p.slug =
        slugify (formGetD form "name" "" |> pyStrip) ++ "-" ++
          toString now) := by
  have hlen : ∀ p : Product, store.products ≠ store.products ++ [p] := by
    intro p hp
    have := congrArg List.length hp
    simp at this
  have hfresh : ∀ s : String,
      store.products.find? (fun q => q.slug = s) = none →
      s ∉ store.products.map Product.slug := by
    intro s hnone hmem
    rcases List.mem_map.mp hmem with ⟨q, hqm, hqs⟩
    have := List.find?_eq_none.mp hnone q hqm
    simp [hqs] at this
  have happend : ∀ s : String, s ∉ store.products.map Product.slug →
      ∀ q : Product, q.slug = s →
      ((store.products ++ [q]).map Product.slug).Nodup := by
    intro s hnotin q hq
    rw [List.map_append]
    refine List.nodup_append.mpr ⟨hnd, List.nodup_singleton _, ?_⟩
    intro x hx hx2
    simp only [List.map_cons, List.map_nil, List.mem_singleton] at hx2
    rw [hx2, hq] at hx
    exact hnotin hx
  unfold admin_products
  by_cases hadm : is_admin sess
  · simp only [hadm, Bool.not_true, Bool.false_eq_true, if_false]
    by_cases hval : ((formGetD form "name" "" |> pyStrip) = "" ∨
        (formGetD form "category" "" |> pyStrip) = "" ∨
        (pyToFloat ((formGetD form "price" "0") |> pyStrip)).getD 0 ≤ 0)
    · simp only [if_pos hval]
      exact ⟨hnd, fun p hp _ => absurd hp (hlen p)⟩
    · simp only [if_neg hval]
      set base := slugify (formGetD form "name" "" |> pyStrip) with hbase
      by_cases hcol :
          (store.products.find? (fun p => p.slug = base)).isSome
      · simp only [if_pos hcol]
        by_cases hdup : (store.products.find?
            (fun q => q.slug = base ++ "-" ++ toString now)).isSome
        · simp only [if_pos hdup]
          exact ⟨hnd, fun p hp _ => absurd hp (hlen p)⟩
        · simp only [if_neg hdup]
          have hnotin : base ++ "-" ++ toString now ∉
              store.products.map Product.slug :=
            hfresh _ (Option.not_isSome_iff_eq_none.mp hdup)
          constructor
          · exact happend _ hnotin _ rfl
          · intro p hp _
            have := List.append_cancel_left hp
            rw [← List.singleton_inj.mp this]
      · simp only [if_neg hcol]
        have hnotin : base ∉ store.products.map Product.slug :=
          hfresh _ (Option.not_isSome_iff_eq_none.mp hcol)
        constructor
        · exact happend _ hnotin _ rfl
        · intro p hp hmem
          exact absurd hmem hnotin
  · simp only [Bool.not_eq_true] at hadm
    simp only [hadm]
    exact ⟨hnd, fun p hp _ => absurd hp (hlen p)⟩

theorem C3_slug_unique_amended_witness :
    (clashStore1.products.map Product.slug).Nodup ∧
    ((admin_products .POST clashForm adminSession clashStore1
        9).store.products.map Product.slug).Nodup ∧
    (admin_products .POST clashForm adminSession clashStore1
        9).store.products = clashStore1.products ++ [createdClashProduct] ∧
    slugify (formGetD clashForm "name" "" |> pyStrip) ∈
      clashStore1.products.map Product.slug ∧
    createdClashProduct.slug =
      slugify (formGetD clashForm "name" "" |> pyStrip) ++ "-" ++
        toString 9 :=
  ⟨by decide,
    (C3_slug_unique_amended clashForm adminSession clashStore1 9
      (by decide)).1,
    by decide, by decide,
    (C3_slug_unique_amended clashForm adminSession clashStore1 9
      (by decide)).2 createdClashProduct (by decide) (by decide)⟩

end Nokshi
